import Mathlib

/-!
Verification development for the archive-fetcher utility
(`download_and_unzip` in `helper_data.py`) and the device selector
(`get_device` in `helper_model.py`).

The Python code is shallowly embedded as pure Lean functions over an
environment `Env` that records the outcome of every external interaction
(filesystem probes, the HEAD request, the GET request and its body chunks,
the zip library, and the unlink call).  Observable side effects (network
requests, progress updates, writes, prints) are recorded in an event trace.
OSError raised by a filesystem operation inside the guarded try-block is
modelled at the extraction step (`extractFail`); OSError raised by the
directory-creation call, which the source performs outside the try-block,
is modelled by `mkdirFail`.
-/

/-- Python exception values relevant to the fetcher: the classes named in
its handlers plus ValueError, which none of its handlers match. -/
inductive PyExc where
  | requestException (s : String)
  | badZipFile (s : String)
  | osError (s : String)
  | valueError (s : String)
deriving DecidableEq

/-- Errors surfaced by the fetcher: either a generic Exception carrying a
message and chained to its cause (the raise-from pattern of the source),
or an exception propagating raw, unwrapped. -/
inductive PyErr where
  | wrapped (msg : String) (cause : PyExc)
  | raw (e : PyExc)
deriving DecidableEq

/-- Python values the fetcher could return: it is annotated `-> None`,
but the claimed contract speaks of a returned list of entry names, so the
value domain includes both. -/
inductive PyVal where
  | none
  | list (xs : List String)
deriving DecidableEq

/-- Outcome of the HEAD request: a RequestException (including a
non-success status surfaced by raise_for_status), or a response whose
Content-Length header is absent or carries the given string. -/
inductive HeadOutcome where
  | fail
  | ok (contentLength : Option String)
deriving DecidableEq

/-- Outcome of the streaming GET request: a RequestException on the call
itself, an HTTP error status surfaced by raise_for_status, or a response
with an optional Content-Length header and a sequence of body chunks. -/
inductive GetOutcome where
  | fail (s : String)
  | httpError (s : String)
  | ok (contentLength : Option String) (chunks : List (List Nat))
deriving DecidableEq

/-- Observable events of one invocation, in order of occurrence. -/
inductive Event where
  | printSkip
  | mkdirCall (parents exist_ok : Bool)
  | headReq
  | printStart
  | getReq
  | tmpCreate
  | addTask (total : Option Nat)
  | write (chunk : List Nat)
  | advance (n : Nat)
  | printDone
  | printExtractStart
  | extract (names : List String)
  | printSummary (names : List String)
  | unlink
  | printCleaned
deriving DecidableEq

/-- Environment of one invocation: the state of the destination directory
and the outcome of every external call the code can make. `zipParse`
abstracts the zipfile library: given the staged bytes it yields the entry
names in stored order, or the message of a BadZipFile error.
`streamFail` models a RequestException raised by chunk iteration after the
given number of chunks; `partlyWritten` models entries left behind by an
extractall call that failed with the OSError message in `extractFail`. -/
structure Env where
  dirExists : Bool
  dirEntries : List String
  mkdirFail : Option String
  headOutcome : HeadOutcome
  getOutcome : GetOutcome
  streamFail : Option (Nat × String)
  zipParse : List Nat → Except String (List String)
  extractFail : Option String
  partlyWritten : List String
  unlinkFail : Bool

/-- Result of one invocation: the Python return value or surfaced error,
the final state of the destination directory, whether the temporary
staging file was ever created and whether it still exists after the call,
and the event trace. -/
structure Outcome where
  ret : Except PyErr PyVal
  dirExists : Bool
  dirEntries : List String
  tmpCreated : Bool
  tmpExists : Bool
  trace : List Event

/-- Message prefix of the wrapper raised for a RequestException. -/
def downloadFailMsg (s : String) : String := "下载文件失败: " ++ s

/-- Message prefix of the wrapper raised for a BadZipFile error. -/
def badZipMsg (s : String) : String := "ZIP文件损坏或格式错误: " ++ s

/-- Message prefix of the wrapper raised for an OSError. -/
def osFailMsg (s : String) : String := "文件操作失败: " ++ s

/-- Chunk size passed to iter_content by the source. -/
def downloadChunkSize : Nat := 16384

/-- Decimal digit value of a character, used to model Python int(). -/
def parseDigit (c : Char) : Option Nat :=
  if 48 ≤ c.toNat ∧ c.toNat ≤ 57 then Option.some (c.toNat - 48) else Option.none

/-- Accumulating decimal parse of a character list; any non-digit makes
the whole parse fail. -/
def parseNatAux (acc : Nat) : List Char → Option Nat
  | [] => Option.some acc
  | c :: cs =>
    match parseDigit c with
    | Option.some d => parseNatAux (acc * 10 + d) cs
    | Option.none => Option.none

/-- Model of Python int() applied to a header string: the parsed
non-negative decimal value, or none for the ValueError raised on an empty
or malformed literal. -/
def pyInt (s : String) : Option Nat :=
  match s.data with
  | [] => Option.none
  | l => parseNatAux 0 l

/-- Total size obtained from the HEAD step. Any RequestException, and any
ValueError from int() on a malformed header, is caught and leaves the
total at 0; an absent header yields int(0) = 0. -/
def headTotalBytes : HeadOutcome → Nat
  | HeadOutcome.fail => 0
  | HeadOutcome.ok Option.none => 0
  | HeadOutcome.ok (Option.some s) => (pyInt s).getD 0

/-- Re-read of the total size from the GET response headers, performed
only when the HEAD step yielded 0. Here int() on a malformed header
raises a ValueError that no handler of the source matches. -/
def getTotalBytes (tb0 : Nat) (cl : Option String) : Except String Nat :=
  if tb0 == 0 then
    match cl with
    | Option.none => Except.ok 0
    | Option.some s =>
      match pyInt s with
      | Option.some n => Except.ok n
      | Option.none => Except.error ("invalid literal for int: " ++ s)
  else Except.ok tb0

/-- Events of the download loop: each truthy (non-empty) chunk is written
to the staging file and then the progress task is advanced by its byte
length; falsy (empty) chunks are skipped. -/
def streamEvents : List (List Nat) → List Event
  | [] => []
  | c :: cs =>
    (if c.isEmpty then [] else [Event.write c, Event.advance c.length])
      ++ streamEvents cs

/-- Concatenation of the delivered chunks: the bytes of the downloaded
body, as staged in the temporary file. -/
def bytesOf : List (List Nat) → List Nat
  | [] => []
  | c :: cs => c ++ bytesOf cs

/-- Events of the finally-block once the staging file exists: unlink is
attempted; on success a cleanup message is printed, and an OSError from
unlink itself is swallowed. -/
def cleanupEvents (unlinkFail : Bool) : List Event :=
  if unlinkFail then [Event.unlink] else [Event.unlink, Event.printCleaned]

/-- Embedding of `download_and_unzip(url, extract_to, skip_if_not_empty)`
from `helper_data.py`, following the source line by line: skip guard,
mkdir (outside the try-block), best-effort HEAD size probe, guarded GET
with raise_for_status, size re-read, staging into a temporary file with
per-chunk progress, zip extraction with summary printout, exception
wrapping, and unconditional staging-file cleanup. -/
def download_and_unzip (url extract_to : String) (skip_if_not_empty : Bool)
    (env : Env) : Outcome :=
  if skip_if_not_empty && env.dirExists && !env.dirEntries.isEmpty then
    { ret := Except.ok PyVal.none, dirExists := env.dirExists,
      dirEntries := env.dirEntries, tmpCreated := false, tmpExists := false,
      trace := [Event.printSkip] }
  else
    match env.mkdirFail with
    | Option.some s =>
      { ret := Except.error (PyErr.raw (PyExc.osError s)),
        dirExists := env.dirExists, dirEntries := env.dirEntries,
        tmpCreated := false, tmpExists := false,
        trace := [Event.mkdirCall true true] }
    | Option.none =>
      let tb0 := headTotalBytes env.headOutcome
      let t0 : List Event :=
        [Event.mkdirCall true true, Event.headReq, Event.printStart]
      match env.getOutcome with
      | GetOutcome.fail s =>
        { ret := Except.error
            (PyErr.wrapped (downloadFailMsg s) (PyExc.requestException s)),
          dirExists := true, dirEntries := env.dirEntries,
          tmpCreated := false, tmpExists := false,
          trace := t0 ++ [Event.getReq] }
      | GetOutcome.httpError s =>
        { ret := Except.error
            (PyErr.wrapped (downloadFailMsg s) (PyExc.requestException s)),
          dirExists := true, dirEntries := env.dirEntries,
          tmpCreated := false, tmpExists := false,
          trace := t0 ++ [Event.getReq] }
      | GetOutcome.ok cl chunks =>
        match getTotalBytes tb0 cl with
        | Except.error s =>
          { ret := Except.error (PyErr.raw (PyExc.valueError s)),
            dirExists := true, dirEntries := env.dirEntries,
            tmpCreated := false, tmpExists := false,
            trace := t0 ++ [Event.getReq] }
        | Except.ok tb =>
          let taskTotal : Option Nat := if tb > 0 then some tb else none
          let delivered :=
            match env.streamFail with
            | Option.none => chunks
            | Option.some nc => chunks.take nc.1
          let t1 := t0 ++ [Event.getReq, Event.tmpCreate,
            Event.addTask taskTotal] ++ streamEvents delivered
          match env.streamFail with
          | Option.some nc =>
            { ret := Except.error (PyErr.wrapped (downloadFailMsg nc.2)
                (PyExc.requestException nc.2)),
              dirExists := true, dirEntries := env.dirEntries,
              tmpCreated := true, tmpExists := env.unlinkFail,
              trace := t1 ++ cleanupEvents env.unlinkFail }
          | Option.none =>
            match env.zipParse (bytesOf delivered) with
            | Except.error s =>
              { ret := Except.error
                  (PyErr.wrapped (badZipMsg s) (PyExc.badZipFile s)),
                dirExists := true, dirEntries := env.dirEntries,
                tmpCreated := true, tmpExists := env.unlinkFail,
                trace := t1 ++ [Event.printDone, Event.printExtractStart]
                  ++ cleanupEvents env.unlinkFail }
            | Except.ok names =>
              match env.extractFail with
              | Option.some s =>
                { ret := Except.error
                    (PyErr.wrapped (osFailMsg s) (PyExc.osError s)),
                  dirExists := true,
                  dirEntries := env.dirEntries ++ env.partlyWritten,
                  tmpCreated := true, tmpExists := env.unlinkFail,
                  trace := t1 ++ [Event.printDone, Event.printExtractStart]
                    ++ cleanupEvents env.unlinkFail }
              | Option.none =>
                { ret := Except.ok PyVal.none, dirExists := true,
                  dirEntries := env.dirEntries ++ names,
                  tmpCreated := true, tmpExists := env.unlinkFail,
                  trace := t1 ++ [Event.printDone, Event.printExtractStart,
                    Event.extract names, Event.printSummary names]
                    ++ cleanupEvents env.unlinkFail }

/-- Default value of the `extract_to` parameter in the source. -/
def defaultExtractTo : String := "./extracted_files"

/-- Default value of the `skip_if_not_empty` parameter in the source. -/
def defaultSkipIfNotEmpty : Bool := true

/-- A bare call with only a URL, as Python performs it with the declared
parameter defaults. -/
def download_and_unzip_bare (url : String) (env : Env) : Outcome :=
  download_and_unzip url defaultExtractTo defaultSkipIfNotEmpty env

/-- Torch device kinds probed by `get_device` in `helper_model.py`. -/
inductive TorchDevice where
  | cuda
  | mps
  | cpu
deriving DecidableEq

/-- Result of one `get_device` call: the value of its local variable
`device`, the log line it prints, and the value the function returns. -/
structure DeviceRun where
  device : TorchDevice
  log : String
  ret : Option TorchDevice
deriving DecidableEq

/-- Embedding of `get_device` from `helper_model.py`: probes CUDA, then
MPS, else CPU, prints a log line, and falls off the end of the function
body, so Python returns None. -/
def get_device (cuda_available mps_available : Bool) : DeviceRun :=
  if cuda_available then
    { device := TorchDevice.cuda, log := "Using device: CUDA",
      ret := Option.none }
  else if mps_available then
    { device := TorchDevice.mps,
      log := "Using device: MPS (Apple Silicon GPU)", ret := Option.none }
  else
    { device := TorchDevice.cpu, log := "Using device: CPU",
      ret := Option.none }

/-- Number of occurrences of an event in a trace. -/
def countEvent (e : Event) : List Event → Nat
  | [] => 0
  | x :: xs => (if x = e then 1 else 0) + countEvent e xs

/-- Sum of all progress advances recorded in a trace. -/
def advanceSum : List Event → Nat
  | [] => 0
  | Event.advance n :: xs => n + advanceSum xs
  | _ :: xs => advanceSum xs

/-- The three wrapped error shapes produced by the exception handlers of
the fetcher: a RequestException, a BadZipFile error, or an OSError, each
wrapped in a generic Exception with its own message prefix and chained to
its cause. -/
def wrappedTaxonomy (e : PyErr) : Prop :=
  (∃ s, e = PyErr.wrapped (downloadFailMsg s) (PyExc.requestException s)) ∨
  (∃ s, e = PyErr.wrapped (badZipMsg s) (PyExc.badZipFile s)) ∨
  (∃ s, e = PyErr.wrapped (osFailMsg s) (PyExc.osError s))

/-- Environment of a successful fetch of a single-entry archive named
hello.txt into a not-yet-existing destination directory. -/
def envC1 : Env :=
  { dirExists := false, dirEntries := [], mkdirFail := Option.none,
    headOutcome := HeadOutcome.ok (Option.some "11"),
    getOutcome := GetOutcome.ok (Option.some "11") [[104, 105, 33]],
    streamFail := Option.none,
    zipParse := fun _ => Except.ok ["hello.txt"],
    extractFail := Option.none, partlyWritten := [], unlinkFail := false }

/-- Environment whose destination directory already exists and holds one
entry, so the skip guard applies. -/
def envC2 : Env :=
  { dirExists := true, dirEntries := ["old.txt"], mkdirFail := Option.none,
    headOutcome := HeadOutcome.fail,
    getOutcome := GetOutcome.fail "unreachable",
    streamFail := Option.none,
    zipParse := fun _ => Except.error "unreachable",
    extractFail := Option.none, partlyWritten := [], unlinkFail := false }

/-- Environment whose HEAD probe fails and whose GET response carries the
malformed Content-Length header abc, so int() raises a ValueError that no
handler of the source matches. -/
def envC3 : Env :=
  { dirExists := false, dirEntries := [], mkdirFail := Option.none,
    headOutcome := HeadOutcome.fail,
    getOutcome := GetOutcome.ok (Option.some "abc") [[1]],
    streamFail := Option.none,
    zipParse := fun _ => Except.ok ["a.txt"],
    extractFail := Option.none, partlyWritten := [], unlinkFail := false }

/-- Environment of a successful fetch in which the unlink of the staging
file raises an OSError, which the source swallows. -/
def envC4x : Env :=
  { dirExists := false, dirEntries := [], mkdirFail := Option.none,
    headOutcome := HeadOutcome.ok (Option.some "3"),
    getOutcome := GetOutcome.ok (Option.some "3") [[1, 2, 3]],
    streamFail := Option.none,
    zipParse := fun _ => Except.ok ["a.txt"],
    extractFail := Option.none, partlyWritten := [], unlinkFail := true }

/-- Environment of a successful fetch whose staging-file unlink succeeds. -/
def envC4w : Env :=
  { dirExists := false, dirEntries := [], mkdirFail := Option.none,
    headOutcome := HeadOutcome.ok (Option.some "3"),
    getOutcome := GetOutcome.ok (Option.some "3") [[1, 2, 3]],
    streamFail := Option.none,
    zipParse := fun _ => Except.ok ["a.txt"],
    extractFail := Option.none, partlyWritten := [], unlinkFail := false }

/-- Environment whose HEAD probe fails outright while the GET response
carries a well-formed Content-Length of 5. -/
def envC5 : Env :=
  { dirExists := false, dirEntries := [], mkdirFail := Option.none,
    headOutcome := HeadOutcome.fail,
    getOutcome := GetOutcome.ok (Option.some "5") [[9, 9, 9, 9, 9]],
    streamFail := Option.none,
    zipParse := fun _ => Except.ok ["b.txt"],
    extractFail := Option.none, partlyWritten := [], unlinkFail := false }

/-- Environment whose GET body arrives as two truthy chunks around one
falsy empty chunk, five bytes in total. -/
def envC6 : Env :=
  { dirExists := false, dirEntries := [], mkdirFail := Option.none,
    headOutcome := HeadOutcome.ok (Option.some "5"),
    getOutcome := GetOutcome.ok (Option.some "5") [[1, 2], [], [3, 4, 5]],
    streamFail := Option.none,
    zipParse := fun _ => Except.ok ["c.txt"],
    extractFail := Option.none, partlyWritten := [], unlinkFail := false }

/-- Environment whose GET request comes back with an HTTP error status,
surfaced by raise_for_status. -/
def envC7 : Env :=
  { dirExists := false, dirEntries := [], mkdirFail := Option.none,
    headOutcome := HeadOutcome.fail,
    getOutcome := GetOutcome.httpError "404 Client Error",
    streamFail := Option.none,
    zipParse := fun _ => Except.error "unreachable",
    extractFail := Option.none, partlyWritten := [], unlinkFail := false }

/-- Environment whose destination directory exists but is empty, with the
rest of the run succeeding. -/
def envC9 : Env :=
  { dirExists := true, dirEntries := [], mkdirFail := Option.none,
    headOutcome := HeadOutcome.ok (Option.some "2"),
    getOutcome := GetOutcome.ok (Option.some "2") [[7, 8]],
    streamFail := Option.none,
    zipParse := fun _ => Except.ok ["d.txt"],
    extractFail := Option.none, partlyWritten := [], unlinkFail := false }

theorem countEvent_append (e : Event) (a b : List Event) :
    countEvent e (a ++ b) = countEvent e a + countEvent e b := by
  induction a with
  | nil => simp [countEvent]
  | cons x xs ih => simp [countEvent, ih, Nat.add_assoc]

theorem advanceSum_append (a b : List Event) :
    advanceSum (a ++ b) = advanceSum a + advanceSum b := by
  induction a with
  | nil => simp [advanceSum]
  | cons x xs ih => cases x <;> simp [advanceSum, ih, Nat.add_assoc]

theorem advanceSum_streamEvents (l : List (List Nat)) :
    advanceSum (streamEvents l) = (bytesOf l).length := by
  induction l with
  | nil => simp [streamEvents, bytesOf, advanceSum]
  | cons c cs ih =>
    cases c with
    | nil => simpa [streamEvents, bytesOf, advanceSum] using ih
    | cons b bs =>
      simp [streamEvents, bytesOf, advanceSum, ih]
      omega

theorem countEvent_streamEvents_getReq (l : List (List Nat)) :
    countEvent Event.getReq (streamEvents l) = 0 := by
  induction l with
  | nil => simp [streamEvents, countEvent]
  | cons c cs ih =>
    cases c with
    | nil => simpa [streamEvents, countEvent] using ih
    | cons b bs => simpa [streamEvents, countEvent] using ih

theorem countEvent_streamEvents_headReq (l : List (List Nat)) :
    countEvent Event.headReq (streamEvents l) = 0 := by
  induction l with
  | nil => simp [streamEvents, countEvent]
  | cons c cs ih =>
    cases c with
    | nil => simpa [streamEvents, countEvent] using ih
    | cons b bs => simpa [streamEvents, countEvent] using ih

theorem streamEvents_eq_flatMap (l : List (List Nat)) :
    streamEvents l = l.flatMap fun c =>
      if c.isEmpty then [] else [Event.write c, Event.advance c.length] := by
  induction l with
  | nil => simp [streamEvents]
  | cons c cs ih => simp [streamEvents, ih]

/-- C10: when the caller omits the optional parameters, the fetcher
defaults the destination directory to ./extracted_files and the
skip-if-nonempty flag to true, so a bare call with only a URL equals the
fully spelled-out call with those arguments. -/
theorem C10_defaults (url : String) (env : Env) :
    download_and_unzip_bare url env
      = download_and_unzip url "./extracted_files" true env ∧
    defaultExtractTo = "./extracted_files" ∧
    defaultSkipIfNotEmpty = true :=
  ⟨rfl, rfl, rfl⟩

/-- C8: the device selection priority in `get_device` is CUDA, then MPS,
then CPU, but the function has no return statement: for every probe
outcome its Python return value is None, never the selected DeviceKind
the claimed contract promises. -/
theorem C8_get_device_returns_none : ∀ c m : Bool,
    (get_device c m).ret = Option.none ∧
    (get_device true m).device = TorchDevice.cuda ∧
    (get_device false true).device = TorchDevice.mps ∧
    (get_device false false).device = TorchDevice.cpu := by
  decide

/-- C2: when the destination directory exists and is non-empty and the
skip flag is true, the call returns immediately with no network request
and leaves the directory untouched. -/
theorem C2_skip_guard (u d : String) (env : Env)
    (hex : env.dirExists = true) (hne : env.dirEntries ≠ []) :
    (download_and_unzip u d true env).ret = Except.ok PyVal.none ∧
    (download_and_unzip u d true env).dirExists = env.dirExists ∧
    (download_and_unzip u d true env).dirEntries = env.dirEntries ∧
    (download_and_unzip u d true env).trace = [Event.printSkip] ∧
    Event.headReq ∉ (download_and_unzip u d true env).trace ∧
    Event.getReq ∉ (download_and_unzip u d true env).trace := by
  have hie : env.dirEntries.isEmpty = false := by
    cases hd : env.dirEntries with
    | nil => exact absurd hd hne
    | cons a as => rfl
  have hg : (true && env.dirExists && !env.dirEntries.isEmpty) = true := by
    simp [hex, hie]
  simp only [download_and_unzip]
  rw [hg]
  simp

/-- C2 witness: the skip guard at a concrete non-empty destination. -/
theorem C2_witness :
    (download_and_unzip "http://h/a.zip" "./dest" true envC2).ret
      = Except.ok PyVal.none ∧
    (download_and_unzip "http://h/a.zip" "./dest" true envC2).dirExists
      = envC2.dirExists ∧
    (download_and_unzip "http://h/a.zip" "./dest" true envC2).dirEntries
      = envC2.dirEntries ∧
    (download_and_unzip "http://h/a.zip" "./dest" true envC2).trace
      = [Event.printSkip] ∧
    Event.headReq ∉ (download_and_unzip "http://h/a.zip" "./dest" true envC2).trace ∧
    Event.getReq ∉ (download_and_unzip "http://h/a.zip" "./dest" true envC2).trace :=
  C2_skip_guard "http://h/a.zip" "./dest" envC2 rfl (by simp [envC2])

/-- C7: a GET request answered with an HTTP error status makes the call
fail with the wrapped RequestException, with no entry written into the
destination directory, though the directory itself was created. -/
theorem C7_http_error (u d : String) (s : Bool) (env : Env) (m : String)
    (hg : (s && env.dirExists && !env.dirEntries.isEmpty) = false)
    (hmk : env.mkdirFail = Option.none)
    (hget : env.getOutcome = GetOutcome.httpError m) :
    (download_and_unzip u d s env).ret = Except.error
      (PyErr.wrapped (downloadFailMsg m) (PyExc.requestException m)) ∧
    (download_and_unzip u d s env).dirEntries = env.dirEntries ∧
    (download_and_unzip u d s env).dirExists = true := by
  simp only [download_and_unzip]
  rw [hg]
  simp [hmk, hget]

/-- C7 witness: a concrete 404 answer. -/
theorem C7_witness :
    (download_and_unzip "http://h/a.zip" "./dest" true envC7).ret
      = Except.error (PyErr.wrapped (downloadFailMsg "404 Client Error")
          (PyExc.requestException "404 Client Error")) ∧
    (download_and_unzip "http://h/a.zip" "./dest" true envC7).dirEntries
      = envC7.dirEntries ∧
    (download_and_unzip "http://h/a.zip" "./dest" true envC7).dirExists = true :=
  C7_http_error "http://h/a.zip" "./dest" true envC7 "404 Client Error"
    rfl rfl rfl

/-- C1 counterexample: on a successful fetch of an archive whose single
entry is hello.txt the function returns the Python value None, not an
Extraction Result whose entry list is the list containing hello.txt. -/
theorem C1_counterexample :
    (download_and_unzip "http://h/a.zip" "./dest" true envC1).ret
      = Except.ok PyVal.none ∧
    (download_and_unzip "http://h/a.zip" "./dest" true envC1).ret
      ≠ Except.ok (PyVal.list ["hello.txt"]) := by
  have h : (download_and_unzip "http://h/a.zip" "./dest" true envC1).ret
      = Except.ok PyVal.none := rfl
  refine ⟨h, ?_⟩
  rw [h]
  simp

/-- C1 amended: on a successful run the entries of the archive are
extracted into the destination directory in the order the archive stores
them and their names are reported in the summary printout in that order,
but the function itself returns None, not an Extraction Result value. -/
theorem C1_amended_extracts_in_order
    (u d : String) (s : Bool) (env : Env) (cl : Option String)
    (chunks : List (List Nat)) (n : Nat) (names : List String)
    (hg : (s && env.dirExists && !env.dirEntries.isEmpty) = false)
    (hmk : env.mkdirFail = Option.none)
    (hget : env.getOutcome = GetOutcome.ok cl chunks)
    (htb : getTotalBytes (headTotalBytes env.headOutcome) cl = Except.ok n)
    (hsf : env.streamFail = Option.none)
    (hz : env.zipParse (bytesOf chunks) = Except.ok names)
    (he : env.extractFail = Option.none) :
    (download_and_unzip u d s env).ret = Except.ok PyVal.none ∧
    (download_and_unzip u d s env).dirEntries = env.dirEntries ++ names ∧
    Event.extract names ∈ (download_and_unzip u d s env).trace ∧
    Event.printSummary names ∈ (download_and_unzip u d s env).trace := by
  simp only [download_and_unzip]
  rw [hg]
  simp [hmk, hget, htb, hsf, hz, he]

/-- C1 witness: the amended statement at the concrete single-entry
archive environment. -/
theorem C1_witness :
    (download_and_unzip "http://h/a.zip" "./dest" true envC1).ret
      = Except.ok PyVal.none ∧
    (download_and_unzip "http://h/a.zip" "./dest" true envC1).dirEntries
      = envC1.dirEntries ++ ["hello.txt"] ∧
    Event.extract ["hello.txt"]
      ∈ (download_and_unzip "http://h/a.zip" "./dest" true envC1).trace ∧
    Event.printSummary ["hello.txt"]
      ∈ (download_and_unzip "http://h/a.zip" "./dest" true envC1).trace :=
  C1_amended_extracts_in_order "http://h/a.zip" "./dest" true envC1
    (Option.some "11") [[104, 105, 33]] 11 ["hello.txt"]
    rfl rfl rfl rfl rfl rfl rfl

theorem countEvent_cleanup_getReq (b : Bool) :
    countEvent Event.getReq (cleanupEvents b) = 0 := by
  cases b <;> simp [cleanupEvents, countEvent]

theorem countEvent_cleanup_headReq (b : Bool) :
    countEvent Event.headReq (cleanupEvents b) = 0 := by
  cases b <;> simp [cleanupEvents, countEvent]

theorem advanceSum_cleanup (b : Bool) :
    advanceSum (cleanupEvents b) = 0 := by
  cases b <;> simp [cleanupEvents, advanceSum]

theorem guard_false_of_not_true (s b : Bool) (l : List String)
    (hg : ¬((s && b && !l.isEmpty) = true)) :
    (s && b && !l.isEmpty) = false := by
  revert hg
  cases (s && b && !l.isEmpty) <;> simp

theorem count_network_le_one (u d : String) (s : Bool) (env : Env) :
    countEvent Event.headReq (download_and_unzip u d s env).trace ≤ 1 ∧
    countEvent Event.getReq (download_and_unzip u d s env).trace ≤ 1 := by
  by_cases hg : (s && env.dirExists && !env.dirEntries.isEmpty) = true
  · simp only [download_and_unzip]
    rw [hg]
    simp [countEvent]
  · have hg2 := guard_false_of_not_true s env.dirExists env.dirEntries hg
    simp only [download_and_unzip]
    rw [hg2]
    cases hmk : env.mkdirFail with
    | some m => simp [hmk, countEvent]
    | none =>
      cases hget : env.getOutcome with
      | fail m => simp [hmk, hget, countEvent, countEvent_append]
      | httpError m => simp [hmk, hget, countEvent, countEvent_append]
      | ok cl chunks =>
        cases htb : getTotalBytes (headTotalBytes env.headOutcome) cl with
        | error m => simp [hmk, hget, htb, countEvent, countEvent_append]
        | ok tb =>
          cases hsf : env.streamFail with
          | some nc =>
            simp [hmk, hget, htb, hsf, countEvent, countEvent_append,
              countEvent_streamEvents_getReq, countEvent_streamEvents_headReq,
              countEvent_cleanup_getReq, countEvent_cleanup_headReq]
          | none =>
            cases hzp : env.zipParse (bytesOf chunks) with
            | error m =>
              simp [hmk, hget, htb, hsf, hzp, countEvent, countEvent_append,
                countEvent_streamEvents_getReq, countEvent_streamEvents_headReq,
                countEvent_cleanup_getReq, countEvent_cleanup_headReq]
            | ok names =>
              cases hef : env.extractFail with
              | some m =>
                simp [hmk, hget, htb, hsf, hzp, hef, countEvent,
                  countEvent_append,
                  countEvent_streamEvents_getReq, countEvent_streamEvents_headReq,
                  countEvent_cleanup_getReq, countEvent_cleanup_headReq]
              | none =>
                simp [hmk, hget, htb, hsf, hzp, hef, countEvent,
                  countEvent_append,
                  countEvent_streamEvents_getReq, countEvent_streamEvents_headReq,
                  countEvent_cleanup_getReq, countEvent_cleanup_headReq]

theorem ret_error_shape (u d : String) (s : Bool) (env : Env) (e : PyErr)
    (h : (download_and_unzip u d s env).ret = Except.error e) :
    wrappedTaxonomy e ∨ (∃ m, e = PyErr.raw (PyExc.osError m)) ∨
      ∃ m, e = PyErr.raw (PyExc.valueError m) := by
  by_cases hg : (s && env.dirExists && !env.dirEntries.isEmpty) = true
  · simp only [download_and_unzip] at h
    rw [hg] at h
    simp at h
  · have hg2 := guard_false_of_not_true s env.dirExists env.dirEntries hg
    simp only [download_and_unzip] at h
    rw [hg2] at h
    cases hmk : env.mkdirFail with
    | some m =>
      simp [hmk] at h
      exact Or.inr (Or.inl ⟨m, h.symm⟩)
    | none =>
      cases hget : env.getOutcome with
      | fail m =>
        simp [hmk, hget] at h
        exact Or.inl (Or.inl ⟨m, h.symm⟩)
      | httpError m =>
        simp [hmk, hget] at h
        exact Or.inl (Or.inl ⟨m, h.symm⟩)
      | ok cl chunks =>
        cases htb : getTotalBytes (headTotalBytes env.headOutcome) cl with
        | error m =>
          simp [hmk, hget, htb] at h
          exact Or.inr (Or.inr ⟨m, h.symm⟩)
        | ok tb =>
          cases hsf : env.streamFail with
          | some nc =>
            simp [hmk, hget, htb, hsf] at h
            exact Or.inl (Or.inl ⟨nc.2, h.symm⟩)
          | none =>
            cases hzp : env.zipParse (bytesOf chunks) with
            | error m =>
              simp [hmk, hget, htb, hsf, hzp] at h
              exact Or.inl (Or.inr (Or.inl ⟨m, h.symm⟩))
            | ok names =>
              cases hef : env.extractFail with
              | some m =>
                simp [hmk, hget, htb, hsf, hzp, hef] at h
                exact Or.inl (Or.inr (Or.inr ⟨m, h.symm⟩))
              | none =>
                simp [hmk, hget, htb, hsf, hzp, hef] at h

/-- C3 counterexample: an invocation whose HEAD probe fails while the GET
response carries the malformed Content-Length header abc surfaces a raw
ValueError, which is none of the three wrapped error conditions. -/
theorem C3_counterexample :
    (download_and_unzip "http://h/a.zip" "./dest" true envC3).ret
      = Except.error (PyErr.raw (PyExc.valueError "invalid literal for int: abc")) ∧
    ¬ wrappedTaxonomy (PyErr.raw (PyExc.valueError "invalid literal for int: abc")) := by
  refine ⟨rfl, ?_⟩
  intro hw
  unfold wrappedTaxonomy at hw
  rcases hw with ⟨m, hm⟩ | ⟨m, hm⟩ | ⟨m, hm⟩ <;> simp at hm

/-- C3 amended: each of HEAD and GET is issued at most once (single
attempt, no retry), and every surfaced failure is one of the three
distinguishable wrapped errors (RequestException, BadZipFile, OSError,
each with its own message prefix and chained cause), or a raw OSError
from directory creation outside the guarded block, or a raw ValueError
from a malformed Content-Length on the streaming response. -/
theorem C3_error_taxonomy (u d : String) (s : Bool) (env : Env) :
    countEvent Event.headReq (download_and_unzip u d s env).trace ≤ 1 ∧
    countEvent Event.getReq (download_and_unzip u d s env).trace ≤ 1 ∧
    ∀ e, (download_and_unzip u d s env).ret = Except.error e →
      wrappedTaxonomy e ∨ (∃ m, e = PyErr.raw (PyExc.osError m)) ∨
        ∃ m, e = PyErr.raw (PyExc.valueError m) :=
  ⟨(count_network_le_one u d s env).1, (count_network_le_one u d s env).2,
   fun e h => ret_error_shape u d s env e h⟩

/-- C3 witness: the amended statement at the malformed-header environment,
with its implication discharged at the raw ValueError the run surfaces. -/
theorem C3_witness :
    countEvent Event.headReq
      (download_and_unzip "http://h/a.zip" "./dest" true envC3).trace ≤ 1 ∧
    countEvent Event.getReq
      (download_and_unzip "http://h/a.zip" "./dest" true envC3).trace ≤ 1 ∧
    (wrappedTaxonomy (PyErr.raw (PyExc.valueError "invalid literal for int: abc")) ∨
      (∃ m, PyErr.raw (PyExc.valueError "invalid literal for int: abc")
          = PyErr.raw (PyExc.osError m)) ∨
      ∃ m, PyErr.raw (PyExc.valueError "invalid literal for int: abc")
          = PyErr.raw (PyExc.valueError m)) :=
  ⟨(C3_error_taxonomy "http://h/a.zip" "./dest" true envC3).1,
   (C3_error_taxonomy "http://h/a.zip" "./dest" true envC3).2.1,
   (C3_error_taxonomy "http://h/a.zip" "./dest" true envC3).2.2
     (PyErr.raw (PyExc.valueError "invalid literal for int: abc")) rfl⟩

theorem unlink_attempted (u d : String) (s : Bool) (env : Env)
    (h : (download_and_unzip u d s env).tmpCreated = true) :
    Event.unlink ∈ (download_and_unzip u d s env).trace := by
  obtain ⟨de, den, mf, ho, go, sf, zp, ef, pw, uf⟩ := env
  simp only [download_and_unzip] at h ⊢
  by_cases hC : (s && de && !den.isEmpty) = true
  · rw [if_pos hC] at h
    simp at h
  · rw [if_neg hC] at h
    rw [if_neg hC]
    cases mf with
    | some m => simp at h
    | none =>
      cases go with
      | fail m => simp at h
      | httpError m => simp at h
      | ok cl chunks =>
        cases hgt : getTotalBytes (headTotalBytes ho) cl with
        | error m => simp [hgt] at h
        | ok tb =>
          cases sf with
          | some nc => cases uf <;> simp [hgt, cleanupEvents]
          | none =>
            cases hzp : zp (bytesOf chunks) with
            | error m => cases uf <;> simp [hgt, hzp, cleanupEvents]
            | ok names =>
              cases ef with
              | some m => cases uf <;> simp [hgt, hzp, cleanupEvents]
              | none => cases uf <;> simp [hgt, hzp, cleanupEvents]

theorem tmp_removed_when_unlink_ok (u d : String) (s : Bool) (env : Env)
    (h : env.unlinkFail = false) :
    (download_and_unzip u d s env).tmpExists = false := by
  obtain ⟨de, den, mf, ho, go, sf, zp, ef, pw, uf⟩ := env
  simp only at h
  subst h
  simp only [download_and_unzip]
  by_cases hC : (s && de && !den.isEmpty) = true
  · rw [if_pos hC]
  · rw [if_neg hC]
    cases mf with
    | some m => rfl
    | none =>
      cases go with
      | fail m => rfl
      | httpError m => rfl
      | ok cl chunks =>
        cases hgt : getTotalBytes (headTotalBytes ho) cl with
        | error m => simp [hgt]
        | ok tb =>
          cases sf with
          | some nc => simp [hgt]
          | none =>
            cases hzp : zp (bytesOf chunks) with
            | error m => simp [hgt, hzp]
            | ok names =>
              cases ef with
              | some m => simp [hgt, hzp]
              | none => simp [hgt, hzp]

theorem ret_ignores_unlink (u d : String) (s : Bool) (env : Env) (b : Bool) :
    (download_and_unzip u d s { env with unlinkFail := b }).ret
      = (download_and_unzip u d s env).ret := by
  obtain ⟨de, den, mf, ho, go, sf, zp, ef, pw, uf⟩ := env
  simp only [download_and_unzip]
  by_cases hC : (s && de && !den.isEmpty) = true
  · rw [if_pos hC, if_pos hC]
  · rw [if_neg hC, if_neg hC]
    cases mf with
    | some m => rfl
    | none =>
      cases go with
      | fail m => rfl
      | httpError m => rfl
      | ok cl chunks =>
        cases hgt : getTotalBytes (headTotalBytes ho) cl with
        | error m => simp [hgt]
        | ok tb =>
          cases sf with
          | some nc => simp [hgt]
          | none =>
            cases hzp : zp (bytesOf chunks) with
            | error m => simp [hgt, hzp]
            | ok names =>
              cases ef with
              | some m => simp [hgt, hzp]
              | none => simp [hgt, hzp]

/-- C4 counterexample: a successful run whose staging-file unlink raises
an OSError returns normally, yet the staging file still exists after the
call, although it was created during it. -/
theorem C4_counterexample :
    (download_and_unzip "http://h/a.zip" "./dest" true envC4x).tmpCreated = true ∧
    (download_and_unzip "http://h/a.zip" "./dest" true envC4x).ret
      = Except.ok PyVal.none ∧
    (download_and_unzip "http://h/a.zip" "./dest" true envC4x).tmpExists = true :=
  ⟨rfl, rfl, rfl⟩

/-- C4 amended: on every exit path where the staging file was created its
deletion is attempted, a deletion failure never changes the surfaced
result, and whenever the deletion call succeeds the staging file no
longer exists after the call returns. -/
theorem C4_cleanup_every_path (u d : String) (s : Bool) (env : Env) :
    ((download_and_unzip u d s env).tmpCreated = true →
      Event.unlink ∈ (download_and_unzip u d s env).trace) ∧
    (env.unlinkFail = false →
      (download_and_unzip u d s env).tmpExists = false) ∧
    (download_and_unzip u d s { env with unlinkFail := true }).ret
      = (download_and_unzip u d s env).ret :=
  ⟨fun h => unlink_attempted u d s env h,
   fun h => tmp_removed_when_unlink_ok u d s env h,
   ret_ignores_unlink u d s env true⟩

/-- C4 witness: the amended statement at a concrete successful run whose
unlink succeeds. -/
theorem C4_witness :
    Event.unlink ∈ (download_and_unzip "http://h/a.zip" "./dest" true envC4w).trace ∧
    (download_and_unzip "http://h/a.zip" "./dest" true envC4w).tmpExists = false :=
  ⟨(C4_cleanup_every_path "http://h/a.zip" "./dest" true envC4w).1 rfl,
   (C4_cleanup_every_path "http://h/a.zip" "./dest" true envC4w).2.1 rfl⟩

theorem getReq_mem_trace (u d : String) (s : Bool) (env : Env)
    (hg : (s && env.dirExists && !env.dirEntries.isEmpty) = false)
    (hmk : env.mkdirFail = Option.none) :
    Event.getReq ∈ (download_and_unzip u d s env).trace := by
  simp only [download_and_unzip]
  rw [hg]
  cases hget : env.getOutcome with
  | fail m => simp [hmk, hget]
  | httpError m => simp [hmk, hget]
  | ok cl chunks =>
    cases hgt : getTotalBytes (headTotalBytes env.headOutcome) cl with
    | error m => simp [hmk, hget, hgt]
    | ok tb =>
      cases hsf : env.streamFail with
      | some nc => simp [hmk, hget, hgt, hsf]
      | none =>
        cases hzp : env.zipParse (bytesOf chunks) with
        | error m => simp [hmk, hget, hgt, hsf, hzp]
        | ok names =>
          cases hef : env.extractFail with
          | some m => simp [hmk, hget, hgt, hsf, hzp, hef]
          | none => simp [hmk, hget, hgt, hsf, hzp, hef]

theorem mkdirCall_mem_trace (u d : String) (s : Bool) (env : Env)
    (hg : (s && env.dirExists && !env.dirEntries.isEmpty) = false) :
    Event.mkdirCall true true ∈ (download_and_unzip u d s env).trace := by
  simp only [download_and_unzip]
  rw [hg]
  cases hmk : env.mkdirFail with
  | some m => simp [hmk]
  | none =>
    cases hget : env.getOutcome with
    | fail m => simp [hmk, hget]
    | httpError m => simp [hmk, hget]
    | ok cl chunks =>
      cases hgt : getTotalBytes (headTotalBytes env.headOutcome) cl with
      | error m => simp [hmk, hget, hgt]
      | ok tb =>
        cases hsf : env.streamFail with
        | some nc => simp [hmk, hget, hgt, hsf]
        | none =>
          cases hzp : env.zipParse (bytesOf chunks) with
          | error m => simp [hmk, hget, hgt, hsf, hzp]
          | ok names =>
            cases hef : env.extractFail with
            | some m => simp [hmk, hget, hgt, hsf, hzp, hef]
            | none => simp [hmk, hget, hgt, hsf, hzp, hef]

/-- C5: every failure mode of the HEAD size probe (request failure,
absent header, malformed header) leaves the total at 0, meaning size
unknown; the run still proceeds to the streaming GET; and when the probe
yielded no size the size is re-read from the GET response headers and
used for the progress task. -/
theorem C5_head_best_effort (u d : String) (s : Bool) (env : Env)
    (hg : (s && env.dirExists && !env.dirEntries.isEmpty) = false)
    (hmk : env.mkdirFail = Option.none)
    (hhead : headTotalBytes env.headOutcome = 0) :
    headTotalBytes HeadOutcome.fail = 0 ∧
    headTotalBytes (HeadOutcome.ok Option.none) = 0 ∧
    (∀ str, pyInt str = Option.none →
      headTotalBytes (HeadOutcome.ok (Option.some str)) = 0) ∧
    Event.getReq ∈ (download_and_unzip u d s env).trace ∧
    ∀ cl chunks n, env.getOutcome = GetOutcome.ok cl chunks →
      getTotalBytes 0 cl = Except.ok n →
      Event.addTask (if n > 0 then Option.some n else Option.none)
        ∈ (download_and_unzip u d s env).trace := by
  refine ⟨rfl, rfl, ?_, getReq_mem_trace u d s env hg hmk, ?_⟩
  · intro str hstr
    simp [headTotalBytes, hstr]
  · intro cl chunks n hget htb
    simp only [download_and_unzip]
    rw [hg]
    cases hsf : env.streamFail with
    | some nc => simp [hmk, hget, hhead, htb, hsf]
    | none =>
      cases hzp : env.zipParse (bytesOf chunks) with
      | error m => simp [hmk, hget, hhead, htb, hsf, hzp]
      | ok names =>
        cases hef : env.extractFail with
        | some m => simp [hmk, hget, hhead, htb, hsf, hzp, hef]
        | none => simp [hmk, hget, hhead, htb, hsf, hzp, hef]

/-- C5 witness: a failing HEAD probe followed by a GET whose header gives
the size 5 used for the progress task. -/
theorem C5_witness :
    Event.getReq ∈ (download_and_unzip "http://h/a.zip" "./dest" true envC5).trace ∧
    Event.addTask (Option.some 5)
      ∈ (download_and_unzip "http://h/a.zip" "./dest" true envC5).trace :=
  ⟨(C5_head_best_effort "http://h/a.zip" "./dest" true envC5 rfl rfl rfl).2.2.2.1,
   (C5_head_best_effort "http://h/a.zip" "./dest" true envC5 rfl rfl rfl).2.2.2.2
     (Option.some "5") [[9, 9, 9, 9, 9]] 5 rfl rfl⟩

/-- C9: when the skip flag is true but the destination directory is
missing or empty, the guard does not apply: the directory is created with
parents and exist-ok, the download is performed, and on an otherwise
successful run the archive entries are extracted. -/
theorem C9_guard_not_applying (u d : String) (env : Env)
    (hcond : env.dirExists = false ∨ env.dirEntries = [])
    (hmk : env.mkdirFail = Option.none) :
    Event.mkdirCall true true ∈ (download_and_unzip u d true env).trace ∧
    Event.getReq ∈ (download_and_unzip u d true env).trace ∧
    ∀ cl chunks n names, env.getOutcome = GetOutcome.ok cl chunks →
      getTotalBytes (headTotalBytes env.headOutcome) cl = Except.ok n →
      env.streamFail = Option.none →
      env.zipParse (bytesOf chunks) = Except.ok names →
      env.extractFail = Option.none →
      Event.extract names ∈ (download_and_unzip u d true env).trace := by
  have hg : (true && env.dirExists && !env.dirEntries.isEmpty) = false := by
    rcases hcond with h | h
    · simp [h]
    · simp [h]
  refine ⟨mkdirCall_mem_trace u d true env hg,
    getReq_mem_trace u d true env hg hmk, ?_⟩
  intro cl chunks n names hget htb hsf hzp hef
  simp only [download_and_unzip]
  rw [hg]
  simp [hmk, hget, htb, hsf, hzp, hef]

/-- C9 witness: an existing but empty destination directory at a concrete
successful run. -/
theorem C9_witness :
    Event.mkdirCall true true
      ∈ (download_and_unzip "http://h/a.zip" "./dest" true envC9).trace ∧
    Event.getReq
      ∈ (download_and_unzip "http://h/a.zip" "./dest" true envC9).trace ∧
    Event.extract ["d.txt"]
      ∈ (download_and_unzip "http://h/a.zip" "./dest" true envC9).trace :=
  ⟨(C9_guard_not_applying "http://h/a.zip" "./dest" envC9 (Or.inr rfl) rfl).1,
   (C9_guard_not_applying "http://h/a.zip" "./dest" envC9 (Or.inr rfl) rfl).2.1,
   (C9_guard_not_applying "http://h/a.zip" "./dest" envC9 (Or.inr rfl) rfl).2.2
     (Option.some "2") [[7, 8]] 2 ["d.txt"] rfl rfl rfl rfl rfl⟩

/-- C6: on a completed body transfer the cumulative progress advances in
the trace equal the byte length of the downloaded body; the per-chunk
events sit between a fixed prefix and an advance-free tail; and the loop
emits, for each truthy chunk, exactly one advance of its byte length
immediately after its write. -/
theorem C6_progress_accumulation (u d : String) (s : Bool) (env : Env)
    (cl : Option String) (chunks : List (List Nat)) (n : Nat)
    (hg : (s && env.dirExists && !env.dirEntries.isEmpty) = false)
    (hmk : env.mkdirFail = Option.none)
    (hget : env.getOutcome = GetOutcome.ok cl chunks)
    (htb : getTotalBytes (headTotalBytes env.headOutcome) cl = Except.ok n)
    (hsf : env.streamFail = Option.none) :
    advanceSum (download_and_unzip u d s env).trace = (bytesOf chunks).length ∧
    (∃ t2, (download_and_unzip u d s env).trace =
        [Event.mkdirCall true true, Event.headReq, Event.printStart,
          Event.getReq, Event.tmpCreate,
          Event.addTask (if n > 0 then Option.some n else Option.none)]
          ++ streamEvents chunks ++ t2 ∧ advanceSum t2 = 0) ∧
    streamEvents chunks = chunks.flatMap fun c =>
      if c.isEmpty then [] else [Event.write c, Event.advance c.length] := by
  have htr : ∃ t2, (download_and_unzip u d s env).trace =
      [Event.mkdirCall true true, Event.headReq, Event.printStart,
        Event.getReq, Event.tmpCreate,
        Event.addTask (if n > 0 then Option.some n else Option.none)]
        ++ streamEvents chunks ++ t2 ∧ advanceSum t2 = 0 := by
    cases hzp : env.zipParse (bytesOf chunks) with
    | error m =>
      refine ⟨[Event.printDone, Event.printExtractStart]
          ++ cleanupEvents env.unlinkFail, ?_, ?_⟩
      · simp only [download_and_unzip]
        rw [hg]
        simp [hmk, hget, htb, hsf, hzp]
      · simp [advanceSum_append, advanceSum, advanceSum_cleanup]
    | ok names =>
      cases hef : env.extractFail with
      | some m =>
        refine ⟨[Event.printDone, Event.printExtractStart]
            ++ cleanupEvents env.unlinkFail, ?_, ?_⟩
        · simp only [download_and_unzip]
          rw [hg]
          simp [hmk, hget, htb, hsf, hzp, hef]
        · simp [advanceSum_append, advanceSum, advanceSum_cleanup]
      | none =>
        refine ⟨[Event.printDone, Event.printExtractStart, Event.extract names,
            Event.printSummary names] ++ cleanupEvents env.unlinkFail, ?_, ?_⟩
        · simp only [download_and_unzip]
          rw [hg]
          simp [hmk, hget, htb, hsf, hzp, hef]
        · simp [advanceSum_append, advanceSum, advanceSum_cleanup]
  obtain ⟨t2, ht, ha⟩ := htr
  refine ⟨?_, ⟨t2, ht, ha⟩, streamEvents_eq_flatMap chunks⟩
  rw [ht]
  simp [advanceSum_append, advanceSum, advanceSum_streamEvents, ha]

/-- C6 witness: a five-byte body delivered as two truthy chunks around an
empty one accumulates advances summing to five. -/
theorem C6_witness :
    advanceSum (download_and_unzip "http://h/a.zip" "./dest" true envC6).trace = 5 :=
  ((C6_progress_accumulation "http://h/a.zip" "./dest" true envC6
      (Option.some "5") [[1, 2], [], [3, 4, 5]] 5 rfl rfl rfl rfl rfl).1).trans rfl
